import Mathlib

/-
Verification of the shoot-traefik extension's reconciliation core.

The definitions below are a shallow embedding of the Go sources:
  * pkg/apis/config/types.go        — the override configuration schema
  * pkg/traefik (deployer)          — Config, DefaultConfig, resource builders,
                                      Deploy, Delete
  * pkg/actuator                    — Reconcile (hibernation gate, purpose gate,
                                      config resolution, deployment)
The Kubernetes client is modelled as a keyed object store with create / get /
update / delete operations that report "already exists" and "not found"
conditions, matching the store-client interface the code consumes.
-/

set_option maxHeartbeats 1000000

namespace ShootTraefik

/-! ## Association-list primitives modelling the keyed object store -/

/-- Look up the first binding of `key` in an association list. -/
def lookupA {κ ν : Type} [DecidableEq κ] (key : κ) : List (κ × ν) → Option ν
  | [] => none
  | (k, w) :: rest => if k = key then some w else lookupA key rest

/-- Replace the value bound to `key` (first binding) in an association list. -/
def replaceA {κ ν : Type} [DecidableEq κ] (key : κ) (v : ν) : List (κ × ν) → List (κ × ν)
  | [] => []
  | (k, w) :: rest => if k = key then (k, v) :: rest else (k, w) :: replaceA key v rest

/-- Remove every binding of `key` from an association list. -/
def removeA {κ ν : Type} [DecidableEq κ] (key : κ) : List (κ × ν) → List (κ × ν)
  | [] => []
  | (k, w) :: rest => if k = key then removeA key rest else (k, w) :: removeA key rest

/-! ## Configuration types (pkg/apis/config/types.go and pkg/traefik Config) -/

/-- IngressProviderType (pkg/apis/config/types.go): a string-typed enum. -/
abbrev IngressProviderType := String

/-- The standard Kubernetes Ingress provider value. -/
def IngressProviderKubernetesIngress : IngressProviderType := "KubernetesIngress"

/-- The NGINX-compatible Kubernetes Ingress provider value. -/
def IngressProviderKubernetesIngressNGINX : IngressProviderType := "KubernetesIngressNGINX"

/-- TraefikConfigSpec (pkg/apis/config/types.go): the decoded override
document carried in the extension's provider config.  `Replicas` is an
`int32` in Go, modelled as `Int`. -/
structure TraefikConfigSpec where
  Image : String
  Replicas : Int
  IngressClass : String
  IngressProvider : IngressProviderType
deriving DecidableEq

/-- Config (pkg/traefik): the resolved configuration for the Traefik
deployment. -/
structure Config where
  Image : String
  Replicas : Int
  IngressClass : String
  IngressProvider : IngressProviderType
deriving DecidableEq

/-- DefaultConfig (pkg/traefik): the default configuration for Traefik. -/
def DefaultConfig : Config :=
  { Image := ""
    Replicas := 2
    IngressClass := "traefik"
    IngressProvider := IngressProviderKubernetesIngress }

/-! ## Fixed names

Modelled from the spec: the Go file declaring the constants
`ManagedResourceName`, `ServiceAccountName`, `Namespace`, `DeploymentName`
and `ImageName` of package traefik is not under src/.  The spec states these
are single fixed logical names not derived from the configuration, so they
are modelled as fixed string constants; no claim depends on their values. -/

/-- Modelled from the spec: the fixed name of the bundle-storage Secret and
of the orchestration ManagedResource within a target handle. -/
def ManagedResourceName : String := "traefik"

/-- Modelled from the spec: the fixed name of the identity principal
(ServiceAccount). -/
def ServiceAccountName : String := "traefik"

/-- Modelled from the spec: the fixed namespace in the shoot cluster into
which the workload resources are rendered. -/
def Namespace : String := "kube-system"

/-- Modelled from the spec: the fixed name of the workload Deployment. -/
def DeploymentName : String := "traefik"

/-- Modelled from the spec: the image-vector key used to resolve the Traefik
image when no explicit image is configured. -/
def ImageName : String := "traefik"

/-! ## Image vector (external capability) -/

/-- Model of the external gardener image vector capability: a mapping from
image name to image reference string. -/
abbrev ImageVector := List (String × String)

/-- Model of imagevector.FindImage: `none` models the error return when the
vector has no matching entry. -/
def findImage (iv : ImageVector) (name : String) : Option String :=
  lookupA name iv

/-! ## Resource descriptions (outputs of the builders in pkg/traefik) -/

/-- One RBAC policy rule (rbacv1.PolicyRule). -/
structure PolicyRule where
  apiGroups : List String
  resources : List String
  verbs : List String
deriving DecidableEq

/-- A ServiceAccount as built by Deployer.serviceAccount. -/
structure ServiceAccountObj where
  name : String
  namespaceName : String
  labels : List (String × String)
deriving DecidableEq

/-- A ClusterRole as built by Deployer.clusterRole. -/
structure ClusterRoleObj where
  name : String
  labels : List (String × String)
  rules : List PolicyRule
deriving DecidableEq

/-- An RBAC subject of a ClusterRoleBinding. -/
structure Subject where
  kind : String
  name : String
  namespaceName : String
deriving DecidableEq

/-- A ClusterRoleBinding as built by Deployer.clusterRoleBinding. -/
structure ClusterRoleBindingObj where
  name : String
  labels : List (String × String)
  roleRefApiGroup : String
  roleRefKind : String
  roleRefName : String
  subjects : List Subject
deriving DecidableEq

/-- A named container port. -/
structure ContainerPort where
  name : String
  containerPort : Int
deriving DecidableEq

/-- An environment variable of the workload container. -/
structure EnvVar where
  name : String
  value : String
deriving DecidableEq

/-- The workload container.  The probe, resource-consumption and
security-context fields of the source are configuration-independent
constants and are not carried in the model. -/
structure Container where
  name : String
  image : String
  args : List String
  ports : List ContainerPort
  env : List EnvVar
deriving DecidableEq

/-- A Deployment as built by Deployer.deployment. -/
structure DeploymentObj where
  name : String
  namespaceName : String
  labels : List (String × String)
  replicas : Int
  selectorMatchLabels : List (String × String)
  templateLabels : List (String × String)
  templateAnnotations : List (String × String)
  serviceAccountName : String
  containers : List Container
  topologyKey : String
deriving DecidableEq

/-- A port of the exposure Service. -/
structure ServicePort where
  name : String
  port : Int
  targetPort : String
deriving DecidableEq

/-- A Service as built by Deployer.service. -/
structure ServiceObj where
  name : String
  namespaceName : String
  labels : List (String × String)
  serviceType : String
  selector : List (String × String)
  ports : List ServicePort
deriving DecidableEq

/-- An IngressClass as built by Deployer.ingressClass. -/
structure IngressClassObj where
  name : String
  labels : List (String × String)
  annotations : List (String × String)
  controller : String
deriving DecidableEq

/-- A NetworkPolicy as built by Deployer.networkPolicy.  The allow-all
ingress and egress rules of the source are configuration-independent
constants and are not carried in the model. -/
structure NetworkPolicyObj where
  name : String
  namespaceName : String
  labels : List (String × String)
  podSelectorMatchLabels : List (String × String)
  policyTypes : List String
deriving DecidableEq

/-- One serialized unit of desired state in the resource bundle. -/
inductive TraefikResource
  | serviceAccount (sa : ServiceAccountObj)
  | clusterRole (cr : ClusterRoleObj)
  | clusterRoleBinding (crb : ClusterRoleBindingObj)
  | deployment (d : DeploymentObj)
  | service (svc : ServiceObj)
  | ingressClass (ic : IngressClassObj)
  | networkPolicy (np : NetworkPolicyObj)
deriving DecidableEq

namespace Deployer

/-- Deployer.serviceAccount. -/
def serviceAccount : ServiceAccountObj :=
  { name := ServiceAccountName
    namespaceName := Namespace
    labels :=
      [("app.kubernetes.io/name", "traefik"),
       ("app.kubernetes.io/instance", "traefik"),
       ("app.kubernetes.io/component", "ingress-controller"),
       ("app.kubernetes.io/managed-by", "gardener")] }

/-- The five base policy rules of Deployer.clusterRole. -/
def baseClusterRoleRules : List PolicyRule :=
  [{ apiGroups := [""]
     resources := ["services", "endpoints", "secrets", "nodes"]
     verbs := ["get", "list", "watch"] },
   { apiGroups := ["discovery.k8s.io"]
     resources := ["endpointslices"]
     verbs := ["get", "list", "watch"] },
   { apiGroups := ["extensions", "networking.k8s.io"]
     resources := ["ingresses", "ingressclasses"]
     verbs := ["get", "list", "watch"] },
   { apiGroups := ["extensions", "networking.k8s.io"]
     resources := ["ingresses/status"]
     verbs := ["update"] },
   { apiGroups := ["traefik.io"]
     resources := ["*"]
     verbs := ["get", "list", "watch"] }]

/-- The extra rule appended for the NGINX provider: namespace permissions,
required when using namespace selectors. -/
def namespacePolicyRule : PolicyRule :=
  { apiGroups := [""]
    resources := ["namespaces"]
    verbs := ["get", "list", "watch"] }

/-- Deployer.clusterRole: the base rules, plus namespace permissions when
the NGINX provider is selected. -/
def clusterRole (c : Config) : ClusterRoleObj :=
  let rules :=
    if c.IngressProvider = IngressProviderKubernetesIngressNGINX then
      baseClusterRoleRules ++ [namespacePolicyRule]
    else
      baseClusterRoleRules
  { name := "traefik-ingress-controller"
    labels :=
      [("app.kubernetes.io/name", "traefik"),
       ("app.kubernetes.io/instance", "traefik"),
       ("app.kubernetes.io/managed-by", "gardener")]
    rules := rules }

/-- Deployer.clusterRoleBinding. -/
def clusterRoleBinding : ClusterRoleBindingObj :=
  { name := "traefik-ingress-controller"
    labels :=
      [("app.kubernetes.io/name", "traefik"),
       ("app.kubernetes.io/instance", "traefik"),
       ("app.kubernetes.io/managed-by", "gardener")]
    roleRefApiGroup := "rbac.authorization.k8s.io"
    roleRefKind := "ClusterRole"
    roleRefName := "traefik-ingress-controller"
    subjects :=
      [{ kind := "ServiceAccount"
         name := ServiceAccountName
         namespaceName := Namespace }] }

/-- The fixed baseline arguments of the workload container. -/
def baseArgs : List String :=
  ["--api.insecure=false",
   "--api.dashboard=false",
   "--ping=true",
   "--ping.entrypoint=web",
   "--metrics.prometheus=true",
   "--metrics.prometheus.entrypoint=metrics",
   "--entrypoints.web.address=:8000",
   "--entrypoints.websecure.address=:8443",
   "--entrypoints.metrics.address=:9100",
   "--log.level=INFO"]

/-- The provider-specific arguments appended by the switch in
Deployer.deployment: the `KubernetesIngress` case falls through to the
default, so every value other than `KubernetesIngressNGINX` selects the
standard provider. -/
def providerArgs (c : Config) : List String :=
  if c.IngressProvider = IngressProviderKubernetesIngressNGINX then
    ["--providers.kubernetesingressnginx=true",
     "--providers.kubernetesingressnginx.ingressclass=" ++ c.IngressClass]
  else
    ["--providers.kubernetesingress=true",
     "--providers.kubernetesingress.ingressclass=" ++ c.IngressClass]

/-- The complete argument list of the workload container. -/
def deploymentArgs (c : Config) : List String :=
  baseArgs ++ providerArgs c

/-- The pod labels of the workload. -/
def deploymentLabels : List (String × String) :=
  [("app.kubernetes.io/name", "traefik"),
   ("app.kubernetes.io/instance", "traefik"),
   ("app.kubernetes.io/component", "ingress-controller"),
   ("app.kubernetes.io/managed-by", "gardener"),
   ("networking.gardener.cloud/to-apiserver", "allowed"),
   ("networking.gardener.cloud/to-dns", "allowed")]

/-- The Deployment built by Deployer.deployment once the image string has
been selected. -/
def deploymentFor (c : Config) (image : String) : DeploymentObj :=
  { name := DeploymentName
    namespaceName := Namespace
    labels := deploymentLabels
    replicas := c.Replicas
    selectorMatchLabels :=
      [("app.kubernetes.io/name", "traefik"),
       ("app.kubernetes.io/instance", "traefik")]
    templateLabels := deploymentLabels
    templateAnnotations :=
      [("prometheus.io/scrape", "true"),
       ("prometheus.io/port", "9100")]
    serviceAccountName := ServiceAccountName
    containers :=
      [{ name := "traefik"
         image := image
         args := deploymentArgs c
         ports :=
           [{ name := "web", containerPort := 8000 },
            { name := "websecure", containerPort := 8443 },
            { name := "metrics", containerPort := 9100 }]
         env :=
           [{ name := "KUBERNETES_SERVICE_HOST",
              value := "kubernetes.default.svc.cluster.local" },
            { name := "KUBERNETES_SERVICE_PORT", value := "443" }] }]
    topologyKey := "kubernetes.io/hostname" }

/-- Deployer.deployment: uses the configured image verbatim when non-empty,
otherwise resolves the image from the image vector, failing when the vector
has no matching entry. -/
def deployment (c : Config) (iv : ImageVector) : Except String DeploymentObj :=
  if c.Image = "" then
    match findImage iv ImageName with
    | none => Except.error "failed to find traefik image in image vector"
    | some img => Except.ok (deploymentFor c img)
  else
    Except.ok (deploymentFor c c.Image)

/-- Deployer.service. -/
def service : ServiceObj :=
  { name := "traefik"
    namespaceName := Namespace
    labels :=
      [("app.kubernetes.io/name", "traefik"),
       ("app.kubernetes.io/instance", "traefik"),
       ("app.kubernetes.io/component", "ingress-controller"),
       ("app.kubernetes.io/managed-by", "gardener")]
    serviceType := "LoadBalancer"
    selector :=
      [("app.kubernetes.io/name", "traefik"),
       ("app.kubernetes.io/instance", "traefik")]
    ports :=
      [{ name := "web", port := 80, targetPort := "web" },
       { name := "websecure", port := 443, targetPort := "websecure" }] }

/-- Deployer.ingressClass: the registration is named with the configured
ingress class name and marked as the default class. -/
def ingressClass (c : Config) : IngressClassObj :=
  { name := c.IngressClass
    labels :=
      [("app.kubernetes.io/name", "traefik"),
       ("app.kubernetes.io/instance", "traefik"),
       ("app.kubernetes.io/managed-by", "gardener")]
    annotations :=
      [("ingressclass.kubernetes.io/is-default-class", "true")]
    controller := "traefik.io/ingress-controller" }

/-- Deployer.networkPolicy. -/
def networkPolicy : NetworkPolicyObj :=
  { name := "traefik-allow-ingress"
    namespaceName := Namespace
    labels :=
      [("app.kubernetes.io/name", "traefik"),
       ("app.kubernetes.io/managed-by", "gardener")]
    podSelectorMatchLabels :=
      [("app.kubernetes.io/name", "traefik"),
       ("app.kubernetes.io/instance", "traefik")]
    policyTypes := ["Ingress", "Egress"] }

/-- Deployer.generateResources: builds every resource and serializes it into
the keyed bundle, in the source's insertion order; the deployment builder is
the only step that can fail, and its failure aborts the whole build. -/
def generateResources (c : Config) (iv : ImageVector) :
    Except String (List (String × TraefikResource)) :=
  match deployment c iv with
  | Except.error msg => Except.error ("failed to create deployment: " ++ msg)
  | Except.ok deploy =>
    Except.ok
      [("serviceaccount.yaml", TraefikResource.serviceAccount serviceAccount),
       ("clusterrole.yaml", TraefikResource.clusterRole (clusterRole c)),
       ("clusterrolebinding.yaml", TraefikResource.clusterRoleBinding clusterRoleBinding),
       ("deployment.yaml", TraefikResource.deployment deploy),
       ("service.yaml", TraefikResource.service service),
       ("ingressclass.yaml", TraefikResource.ingressClass (ingressClass c)),
       ("networkpolicy.yaml", TraefikResource.networkPolicy networkPolicy)]

end Deployer

/-! ## The target store and the client operations it exposes -/

/-- Model of the external utility utils.ComputeSecretChecksum: the real
implementation is a SHA-256 digest of the secret data; every claim depends
only on the digest being a deterministic pure function of the data, so the
model digests the bundle's key sequence. -/
def computeSecretChecksum (data : List (String × TraefikResource)) : String :=
  String.intercalate "," (data.map (fun kv => kv.1))

/-- The bundle-storage Secret object as persisted in the store. -/
structure SecretObj where
  name : String
  namespaceName : String
  annotations : List (String × String)
  data : List (String × TraefikResource)
  resourceVersion : String
deriving DecidableEq

/-- The orchestration ManagedResource object as persisted in the store. -/
structure ManagedResourceObj where
  name : String
  namespaceName : String
  secretRefs : List String
  injectLabels : List (String × String)
  keepObjects : Bool
  resourceVersion : String
deriving DecidableEq

/-- A store key: (namespace, name). -/
abbrev ObjKey := String × String

/-- The target store holding the persisted descriptors, keyed by namespace
and name. -/
structure Store where
  secrets : List (ObjKey × SecretObj)
  managedResources : List (ObjKey × ManagedResourceObj)
deriving DecidableEq

/-- The empty target store. -/
def emptyStore : Store := { secrets := [], managedResources := [] }

/-- The distinguishable store-client error conditions. -/
inductive ClientError
  | alreadyExists
  | notFound
deriving DecidableEq

/-- client.Create for Secrets: fails with "already exists" when the key is
taken. -/
def clientCreateSecret (s : Store) (obj : SecretObj) : Except ClientError Store :=
  match lookupA (obj.namespaceName, obj.name) s.secrets with
  | some _ => Except.error ClientError.alreadyExists
  | none =>
    Except.ok { s with secrets := ((obj.namespaceName, obj.name), obj) :: s.secrets }

/-- client.Get for Secrets: fails with "not found" when absent. -/
def clientGetSecret (s : Store) (key : ObjKey) : Except ClientError SecretObj :=
  match lookupA key s.secrets with
  | some o => Except.ok o
  | none => Except.error ClientError.notFound

/-- client.Update for Secrets: replaces the stored object, failing with
"not found" when absent. -/
def clientUpdateSecret (s : Store) (obj : SecretObj) : Except ClientError Store :=
  match lookupA (obj.namespaceName, obj.name) s.secrets with
  | some _ =>
    Except.ok { s with secrets := replaceA (obj.namespaceName, obj.name) obj s.secrets }
  | none => Except.error ClientError.notFound

/-- client.Delete for Secrets: fails with "not found" when absent. -/
def clientDeleteSecret (s : Store) (key : ObjKey) : Except ClientError Store :=
  match lookupA key s.secrets with
  | some _ => Except.ok { s with secrets := removeA key s.secrets }
  | none => Except.error ClientError.notFound

/-- client.Create for ManagedResources. -/
def clientCreateManagedResource (s : Store) (obj : ManagedResourceObj) :
    Except ClientError Store :=
  match lookupA (obj.namespaceName, obj.name) s.managedResources with
  | some _ => Except.error ClientError.alreadyExists
  | none =>
    Except.ok
      { s with managedResources :=
          ((obj.namespaceName, obj.name), obj) :: s.managedResources }

/-- client.Get for ManagedResources. -/
def clientGetManagedResource (s : Store) (key : ObjKey) :
    Except ClientError ManagedResourceObj :=
  match lookupA key s.managedResources with
  | some o => Except.ok o
  | none => Except.error ClientError.notFound

/-- client.Update for ManagedResources. -/
def clientUpdateManagedResource (s : Store) (obj : ManagedResourceObj) :
    Except ClientError Store :=
  match lookupA (obj.namespaceName, obj.name) s.managedResources with
  | some _ =>
    Except.ok
      { s with managedResources :=
          replaceA (obj.namespaceName, obj.name) obj s.managedResources }
  | none => Except.error ClientError.notFound

/-- client.Delete for ManagedResources. -/
def clientDeleteManagedResource (s : Store) (key : ObjKey) :
    Except ClientError Store :=
  match lookupA key s.managedResources with
  | some _ => Except.ok { s with managedResources := removeA key s.managedResources }
  | none => Except.error ClientError.notFound

/-! ## The convergence engine (Deployer.Deploy) -/

/-- The failure modes of Deployer.Deploy, one per wrapped error return of
the source. -/
inductive DeployError
  | generateFailed (msg : String)
  | createSecretFailed
  | getSecretFailed
  | updateSecretFailed
  | createManagedResourceFailed
  | getManagedResourceFailed
  | updateManagedResourceFailed
deriving DecidableEq

/-- The create-or-update step for the bundle-storage Secret, mirroring
Deployer.Deploy lines 106–119: attempt create; on "already exists" fetch the
current resource version and re-issue as an update; any other failure is
fatal. -/
def deploySecretStep (secret : SecretObj) (s : Store) : Option DeployError × Store :=
  match clientCreateSecret s secret with
  | Except.ok s1 => (none, s1)
  | Except.error e =>
    if e ≠ ClientError.alreadyExists then
      (some DeployError.createSecretFailed, s)
    else
      match clientGetSecret s (secret.namespaceName, secret.name) with
      | Except.error _ => (some DeployError.getSecretFailed, s)
      | Except.ok existing =>
        match clientUpdateSecret s { secret with resourceVersion := existing.resourceVersion } with
        | Except.error _ => (some DeployError.updateSecretFailed, s)
        | Except.ok s1 => (none, s1)

/-- The create-or-update step for the orchestration ManagedResource,
mirroring Deployer.Deploy lines 138–151. -/
def deployManagedResourceStep (mr : ManagedResourceObj) (s : Store) :
    Option DeployError × Store :=
  match clientCreateManagedResource s mr with
  | Except.ok s1 => (none, s1)
  | Except.error e =>
    if e ≠ ClientError.alreadyExists then
      (some DeployError.createManagedResourceFailed, s)
    else
      match clientGetManagedResource s (mr.namespaceName, mr.name) with
      | Except.error _ => (some DeployError.getManagedResourceFailed, s)
      | Except.ok existing =>
        match clientUpdateManagedResource s { mr with resourceVersion := existing.resourceVersion } with
        | Except.error _ => (some DeployError.updateManagedResourceFailed, s)
        | Except.ok s1 => (none, s1)

/-- The bundle-storage Secret built by Deployer.Deploy, carrying the content
checksum as an annotation. -/
def Deployer.deploySecret (namespaceName : String)
    (resources : List (String × TraefikResource)) : SecretObj :=
  { name := ManagedResourceName
    namespaceName := namespaceName
    annotations :=
      [("resources.gardener.cloud/data-checksum", computeSecretChecksum resources)]
    data := resources
    resourceVersion := "" }

/-- The orchestration ManagedResource built by Deployer.Deploy. -/
def Deployer.deployManagedResource (namespaceName : String) : ManagedResourceObj :=
  { name := ManagedResourceName
    namespaceName := namespaceName
    secretRefs := [ManagedResourceName]
    injectLabels := [("shoot.gardener.cloud/no-cleanup", "true")]
    keepObjects := false
    resourceVersion := "" }

/-- Deployer.Deploy: generate the bundle, then create-or-update the
bundle-storage Secret, then create-or-update the orchestration
ManagedResource.  Returns the error (if any) together with the store as it
stands at the point of return. -/
def Deployer.Deploy (c : Config) (iv : ImageVector) (namespaceName : String)
    (s : Store) : Option DeployError × Store :=
  match Deployer.generateResources c iv with
  | Except.error msg =>
    (some (DeployError.generateFailed ("failed to generate traefik resources: " ++ msg)), s)
  | Except.ok resources =>
    let secret := Deployer.deploySecret namespaceName resources
    match deploySecretStep secret s with
    | (some e, s1) => (some e, s1)
    | (none, s1) =>
      match deployManagedResourceStep (Deployer.deployManagedResource namespaceName) s1 with
      | (some e, s2) => (some e, s2)
      | (none, s2) => (none, s2)

/-! ## The teardown engine (Deployer.Delete) -/

/-- The delete operations issued against the store, recorded in issue
order. -/
inductive DeleteOp
  | deleteManagedResource (key : ObjKey)
  | deleteSecret (key : ObjKey)
deriving DecidableEq

/-- The failure modes of Deployer.Delete. -/
inductive DeleteError
  | deleteManagedResourceFailed
  | deleteSecretFailed
deriving DecidableEq

/-- Deployer.Delete: delete the orchestration ManagedResource first, then
the bundle-storage Secret; a "not found" answer on either delete is ignored
(client.IgnoreNotFound).  The result also carries the ordered trace of the
delete operations issued. -/
def Deployer.Delete (namespaceName : String) (s : Store) :
    Option DeleteError × Store × List DeleteOp :=
  let mrKey : ObjKey := (namespaceName, ManagedResourceName)
  let mrRes : Except DeleteError Store :=
    match clientDeleteManagedResource s mrKey with
    | Except.error e =>
      if e ≠ ClientError.notFound then Except.error DeleteError.deleteManagedResourceFailed
      else Except.ok s
    | Except.ok s1 => Except.ok s1
  match mrRes with
  | Except.error e => (some e, s, [DeleteOp.deleteManagedResource mrKey])
  | Except.ok s1 =>
    let secretKey : ObjKey := (namespaceName, ManagedResourceName)
    let secretRes : Except DeleteError Store :=
      match clientDeleteSecret s1 secretKey with
      | Except.error e =>
        if e ≠ ClientError.notFound then Except.error DeleteError.deleteSecretFailed
        else Except.ok s1
      | Except.ok s2 => Except.ok s2
    match secretRes with
    | Except.error e =>
      (some e, s1, [DeleteOp.deleteManagedResource mrKey, DeleteOp.deleteSecret secretKey])
    | Except.ok s2 =>
      (none, s2, [DeleteOp.deleteManagedResource mrKey, DeleteOp.deleteSecret secretKey])

/-! ## The actuator (pkg/actuator Reconcile) -/

/-- The shoot fields the actuator inspects. -/
structure Shoot where
  hibernationEnabled : Bool
  purpose : Option String
deriving DecidableEq

/-- The cluster object fetched at the start of reconciliation. -/
structure Cluster where
  shoot : Shoot
deriving DecidableEq

/-- Model of the external helper v1beta1helper.HibernationIsEnabled. -/
def HibernationIsEnabled (shoot : Shoot) : Bool :=
  shoot.hibernationEnabled

/-- gardencorev1beta1.ShootPurposeEvaluation. -/
def ShootPurposeEvaluation : String := "evaluation"

/-- The provider config carried by the extension resource, as the actuator
observes it through the external decoder: absent, present but failing to
decode, or successfully decoded. -/
inductive RawProviderConfig
  | absent
  | malformed
  | valid (spec : TraefikConfigSpec)
deriving DecidableEq

/-- The override application of Actuator.Reconcile lines 219–232: each
field of the decoded spec replaces the corresponding base field exactly when
it is non-empty (strings) or strictly positive (replicas). -/
def resolveConfig (base : Config) (cfg : TraefikConfigSpec) : Config :=
  let c1 := if cfg.Image ≠ "" then { base with Image := cfg.Image } else base
  let c2 := if cfg.Replicas > 0 then { c1 with Replicas := cfg.Replicas } else c1
  let c3 := if cfg.IngressClass ≠ "" then { c2 with IngressClass := cfg.IngressClass } else c2
  if cfg.IngressProvider ≠ "" then { c3 with IngressProvider := cfg.IngressProvider } else c3

/-- The failure modes of Actuator.Reconcile.  The source's "failed to get
cluster" path is outside the model: the cluster is an input here. -/
inductive ReconcileError
  | shootPurposeNotEvaluation (purposeValue : String)
  | deployFailed (e : DeployError)
deriving DecidableEq

/-- Actuator.Reconcile: skip when hibernated; abort when the shoot purpose
is absent or differs from "evaluation"; resolve the configuration (a decode
failure is logged and the defaults are used); deploy. -/
def Actuator.Reconcile (cluster : Cluster) (raw : RawProviderConfig)
    (iv : ImageVector) (clusterName : String) (s : Store) :
    Option ReconcileError × Store :=
  if HibernationIsEnabled cluster.shoot then
    (none, s)
  else
    match cluster.shoot.purpose with
    | none => (some (ReconcileError.shootPurposeNotEvaluation "nil"), s)
    | some p =>
      if p ≠ ShootPurposeEvaluation then
        (some (ReconcileError.shootPurposeNotEvaluation p), s)
      else
        let traefikConfig :=
          match raw with
          | RawProviderConfig.absent => DefaultConfig
          | RawProviderConfig.malformed => DefaultConfig
          | RawProviderConfig.valid cfg => resolveConfig DefaultConfig cfg
        match Deployer.Deploy traefikConfig iv clusterName s with
        | (some e, s1) => (some (ReconcileError.deployFailed e), s1)
        | (none, s1) => (none, s1)

/-! ## Association-list lemmas -/

theorem lookupA_replaceA_self {κ ν : Type} [DecidableEq κ] (key : κ) (v : ν) :
    ∀ l : List (κ × ν), lookupA key l = some v → replaceA key v l = l := by
  intro l
  induction l with
  | nil => intro h; rfl
  | cons hd tl ih =>
    intro h
    obtain ⟨k, w⟩ := hd
    by_cases hk : k = key
    · subst hk
      have hw : w = v := by simpa [lookupA] using h
      subst hw
      simp [replaceA]
    · simp only [lookupA, replaceA, if_neg hk] at h ⊢
      rw [ih h]

theorem lookupA_replaceA_found {κ ν : Type} [DecidableEq κ] (key : κ) (v w : ν) :
    ∀ l : List (κ × ν), lookupA key l = some w →
      lookupA key (replaceA key v l) = some v := by
  intro l
  induction l with
  | nil => intro h; simp [lookupA] at h
  | cons hd tl ih =>
    intro h
    obtain ⟨k, u⟩ := hd
    by_cases hk : k = key
    · subst hk
      simp [lookupA, replaceA]
    · simp only [lookupA, replaceA, if_neg hk] at h ⊢
      exact ih h

theorem removeA_of_lookupA_none {κ ν : Type} [DecidableEq κ] (key : κ) :
    ∀ l : List (κ × ν), lookupA key l = none → removeA key l = l := by
  intro l
  induction l with
  | nil => intro h; rfl
  | cons hd tl ih =>
    intro h
    obtain ⟨k, u⟩ := hd
    by_cases hk : k = key
    · simp [lookupA, hk] at h
    · simp only [lookupA, removeA, if_neg hk] at h ⊢
      rw [ih h]

/-! ## Step lemmas for the convergence engine -/

theorem deploySecretStep_ok (secret : SecretObj) (s s1 : Store)
    (h : deploySecretStep secret s = (none, s1)) :
    (∃ rv, lookupA (secret.namespaceName, secret.name) s1.secrets =
      some { secret with resourceVersion := rv }) ∧
    s1.managedResources = s.managedResources := by
  unfold deploySecretStep clientCreateSecret clientGetSecret clientUpdateSecret at h
  cases hl : lookupA (secret.namespaceName, secret.name) s.secrets with
  | none =>
    rw [hl] at h
    simp only [Prod.mk.injEq] at h
    obtain ⟨-, hs⟩ := h
    subst hs
    constructor
    · refine ⟨secret.resourceVersion, ?_⟩
      simp [lookupA]
    · rfl
  | some existing =>
    rw [hl] at h
    simp only [ne_eq, not_true_eq_false, if_false, hl, reduceCtorEq, ite_false] at h
    simp only [Prod.mk.injEq] at h
    obtain ⟨-, hs⟩ := h
    subst hs
    constructor
    · refine ⟨existing.resourceVersion, ?_⟩
      exact lookupA_replaceA_found _ _ existing _ hl
    · rfl

theorem deploySecretStep_idem (secret : SecretObj) (s : Store) (rv : String)
    (h : lookupA (secret.namespaceName, secret.name) s.secrets =
      some { secret with resourceVersion := rv }) :
    deploySecretStep secret s = (none, s) := by
  unfold deploySecretStep clientCreateSecret clientGetSecret clientUpdateSecret
  rw [h]
  simp only [ne_eq, not_true_eq_false, if_false, reduceCtorEq, ite_false]
  have hrepl := lookupA_replaceA_self (ν := SecretObj)
    (secret.namespaceName, secret.name) { secret with resourceVersion := rv } s.secrets h
  rw [h]
  simp only [hrepl]

theorem deployManagedResourceStep_ok (mr : ManagedResourceObj) (s s1 : Store)
    (h : deployManagedResourceStep mr s = (none, s1)) :
    (∃ rv, lookupA (mr.namespaceName, mr.name) s1.managedResources =
      some { mr with resourceVersion := rv }) ∧
    s1.secrets = s.secrets := by
  unfold deployManagedResourceStep clientCreateManagedResource
    clientGetManagedResource clientUpdateManagedResource at h
  cases hl : lookupA (mr.namespaceName, mr.name) s.managedResources with
  | none =>
    rw [hl] at h
    simp only [Prod.mk.injEq] at h
    obtain ⟨-, hs⟩ := h
    subst hs
    constructor
    · refine ⟨mr.resourceVersion, ?_⟩
      simp [lookupA]
    · rfl
  | some existing =>
    rw [hl] at h
    simp only [ne_eq, not_true_eq_false, if_false, hl, reduceCtorEq, ite_false] at h
    simp only [Prod.mk.injEq] at h
    obtain ⟨-, hs⟩ := h
    subst hs
    constructor
    · refine ⟨existing.resourceVersion, ?_⟩
      exact lookupA_replaceA_found _ _ existing _ hl
    · rfl

theorem deployManagedResourceStep_idem (mr : ManagedResourceObj) (s : Store) (rv : String)
    (h : lookupA (mr.namespaceName, mr.name) s.managedResources =
      some { mr with resourceVersion := rv }) :
    deployManagedResourceStep mr s = (none, s) := by
  unfold deployManagedResourceStep clientCreateManagedResource
    clientGetManagedResource clientUpdateManagedResource
  rw [h]
  simp only [ne_eq, not_true_eq_false, if_false, reduceCtorEq, ite_false]
  have hrepl := lookupA_replaceA_self (ν := ManagedResourceObj)
    (mr.namespaceName, mr.name) { mr with resourceVersion := rv } s.managedResources h
  rw [h]
  simp only [hrepl]

/-! ## Claim C1: idempotence of Deploy -/

/-- Claim C1: for every configuration, calling Deployer.Deploy twice in
succession against the same target handle with an unchanged resource bundle
leaves the target store identical after the first and the second call, and
the second call does not fail: the "already exists" answer on create is
handled by fetching the current resource version and re-issuing the write
as an update. -/
theorem deploy_idempotent (c : Config) (iv : ImageVector) (n : String)
    (s s1 : Store) (h : Deployer.Deploy c iv n s = (none, s1)) :
    Deployer.Deploy c iv n s1 = (none, s1) := by
  unfold Deployer.Deploy at h ⊢
  cases hg : Deployer.generateResources c iv with
  | error msg => rw [hg] at h; simp at h
  | ok resources =>
    rw [hg] at h
    dsimp only at h ⊢
    cases hsec : deploySecretStep (Deployer.deploySecret n resources) s with
    | mk oe sA =>
      rw [hsec] at h
      cases oe with
      | some e => simp at h
      | none =>
        dsimp only at h
        cases hmr : deployManagedResourceStep (Deployer.deployManagedResource n) sA with
        | mk oe2 sB =>
          rw [hmr] at h
          cases oe2 with
          | some e => simp at h
          | none =>
            simp only [Prod.mk.injEq, true_and] at h
            subst h
            obtain ⟨⟨rvS, hlookS⟩, hmrEq⟩ :=
              deploySecretStep_ok (Deployer.deploySecret n resources) s sA hsec
            obtain ⟨⟨rvM, hlookM⟩, hsecEq⟩ :=
              deployManagedResourceStep_ok (Deployer.deployManagedResource n) sA sB hmr
            have hlookS1 : lookupA
                ((Deployer.deploySecret n resources).namespaceName,
                 (Deployer.deploySecret n resources).name) sB.secrets =
                some { Deployer.deploySecret n resources with resourceVersion := rvS } := by
              rw [hsecEq]; exact hlookS
            have hstep1 := deploySecretStep_idem (Deployer.deploySecret n resources) sB rvS hlookS1
            have hstep2 := deployManagedResourceStep_idem
              (Deployer.deployManagedResource n) sB rvM hlookM
            rw [hstep1]
            dsimp only
            rw [hstep2]

/-- Concrete instance discharging the hypothesis of `deploy_idempotent`:
a first successful deployment of a fixed configuration into the empty
store, redeployed. -/
theorem deploy_idempotent_witness :
    Deployer.Deploy
      { Image := "custom:v1", Replicas := 2, IngressClass := "traefik",
        IngressProvider := "KubernetesIngress" } [] "shoot--test"
      ((Deployer.Deploy
        { Image := "custom:v1", Replicas := 2, IngressClass := "traefik",
          IngressProvider := "KubernetesIngress" } [] "shoot--test" emptyStore).2) =
    (none,
     (Deployer.Deploy
       { Image := "custom:v1", Replicas := 2, IngressClass := "traefik",
         IngressProvider := "KubernetesIngress" } [] "shoot--test" emptyStore).2) :=
  deploy_idempotent _ [] "shoot--test" emptyStore _ (by decide)

/-! ## Claim C2: variant exclusivity -/

theorem standard_ne_nginx_provider :
    IngressProviderKubernetesIngress ≠ IngressProviderKubernetesIngressNGINX := by
  decide

/-- A string strictly shorter than `t` never equals `t ++ x`. -/
theorem ne_append_of_length_lt {s t : String} (x : String)
    (h : s.length < t.length) : s ≠ t ++ x := by
  intro he
  have hlen : s.length = t.length + x.length := by
    rw [he, String.length_append]
  omega

/-- Claim C2: for every configuration whose provider is not
`KubernetesIngressNGINX` (including empty and unrecognized values, which
behave identically to the standard provider), the workload arguments
contain the standard-mode flag parameterized by the ingress class and never
the compatibility-mode flag, and the cluster role never contains the
namespace read rule; for `KubernetesIngressNGINX` the inverse holds; and in
every case exactly one of the two watch modes is enabled. -/
theorem variant_exclusivity (c : Config) :
    (c.IngressProvider ≠ IngressProviderKubernetesIngressNGINX →
      "--providers.kubernetesingress=true" ∈ Deployer.deploymentArgs c ∧
      ("--providers.kubernetesingress.ingressclass=" ++ c.IngressClass) ∈
        Deployer.deploymentArgs c ∧
      "--providers.kubernetesingressnginx=true" ∉ Deployer.deploymentArgs c ∧
      Deployer.namespacePolicyRule ∉ (Deployer.clusterRole c).rules ∧
      Deployer.deploymentArgs c =
        Deployer.deploymentArgs { c with IngressProvider := IngressProviderKubernetesIngress }) ∧
    (c.IngressProvider = IngressProviderKubernetesIngressNGINX →
      "--providers.kubernetesingressnginx=true" ∈ Deployer.deploymentArgs c ∧
      ("--providers.kubernetesingressnginx.ingressclass=" ++ c.IngressClass) ∈
        Deployer.deploymentArgs c ∧
      "--providers.kubernetesingress=true" ∉ Deployer.deploymentArgs c ∧
      Deployer.namespacePolicyRule ∈ (Deployer.clusterRole c).rules) ∧
    ("--providers.kubernetesingress=true" ∈ Deployer.deploymentArgs c ↔
      ¬ "--providers.kubernetesingressnginx=true" ∈ Deployer.deploymentArgs c) := by
  have hstdmem : ∀ x : Config, x.IngressProvider ≠ IngressProviderKubernetesIngressNGINX →
      Deployer.deploymentArgs x = Deployer.baseArgs ++
        ["--providers.kubernetesingress=true",
         "--providers.kubernetesingress.ingressclass=" ++ x.IngressClass] := by
    intro x hx
    simp [Deployer.deploymentArgs, Deployer.providerArgs, hx]
  have hnginxmem : ∀ x : Config, x.IngressProvider = IngressProviderKubernetesIngressNGINX →
      Deployer.deploymentArgs x = Deployer.baseArgs ++
        ["--providers.kubernetesingressnginx=true",
         "--providers.kubernetesingressnginx.ingressclass=" ++ x.IngressClass] := by
    intro x hx
    simp [Deployer.deploymentArgs, Deployer.providerArgs, hx]
  have hnginxflag_notin_std : ∀ x : Config,
      x.IngressProvider ≠ IngressProviderKubernetesIngressNGINX →
      "--providers.kubernetesingressnginx=true" ∉ Deployer.deploymentArgs x := by
    intro x hx hmem
    rw [hstdmem x hx] at hmem
    rcases List.mem_append.mp hmem with hb | hb
    · revert hb; decide
    · rw [List.mem_cons, List.mem_singleton] at hb
      rcases hb with hb | hb
      · exact absurd hb (by decide)
      · exact absurd hb (ne_append_of_length_lt _ (by decide))
  have hstdflag_notin_nginx : ∀ x : Config,
      x.IngressProvider = IngressProviderKubernetesIngressNGINX →
      "--providers.kubernetesingress=true" ∉ Deployer.deploymentArgs x := by
    intro x hx hmem
    rw [hnginxmem x hx] at hmem
    rcases List.mem_append.mp hmem with hb | hb
    · revert hb; decide
    · rw [List.mem_cons, List.mem_singleton] at hb
      rcases hb with hb | hb
      · exact absurd hb (by decide)
      · exact absurd hb (ne_append_of_length_lt _ (by decide))
  refine ⟨?_, ?_, ?_⟩
  · intro hp
    refine ⟨?_, ?_, hnginxflag_notin_std c hp, ?_, ?_⟩
    · rw [hstdmem c hp]; simp
    · rw [hstdmem c hp]; simp
    · simp only [Deployer.clusterRole, if_neg hp]
      decide
    · rw [hstdmem c hp, hstdmem { c with IngressProvider := IngressProviderKubernetesIngress }
        (fun hcon => absurd hcon standard_ne_nginx_provider)]
  · intro hp
    refine ⟨?_, ?_, hstdflag_notin_nginx c hp, ?_⟩
    · rw [hnginxmem c hp]; simp
    · rw [hnginxmem c hp]; simp
    · simp only [Deployer.clusterRole, if_pos hp]
      simp [Deployer.namespacePolicyRule]
  · by_cases hp : c.IngressProvider = IngressProviderKubernetesIngressNGINX
    · constructor
      · intro hmem; exact absurd hmem (hstdflag_notin_nginx c hp)
      · intro hneg
        exfalso
        apply hneg
        rw [hnginxmem c hp]; simp
    · constructor
      · intro _; exact hnginxflag_notin_std c hp
      · intro _
        rw [hstdmem c hp]; simp

/-- Concrete instances discharging the hypotheses of `variant_exclusivity`:
the default configuration selects the standard watch mode, and the
NGINX-compatible configuration selects the compatibility watch mode. -/
theorem variant_exclusivity_witness :
    "--providers.kubernetesingress=true" ∈ Deployer.deploymentArgs DefaultConfig ∧
    "--providers.kubernetesingressnginx=true" ∈ Deployer.deploymentArgs
      { DefaultConfig with IngressProvider := IngressProviderKubernetesIngressNGINX } :=
  ⟨((variant_exclusivity DefaultConfig).1 (by decide)).1,
   ((variant_exclusivity
      { DefaultConfig with IngressProvider := IngressProviderKubernetesIngressNGINX }).2.1
      (by decide)).1⟩

/-! ## Claim C3: teardown order and tolerance -/

/-- Claim C3: for every target handle, Deployer.Delete issues the delete of
the orchestration ManagedResource first and of the bundle-storage Secret
second (the recorded operation trace), never fails (a "not found" answer on
either delete is treated as success), and leaves the store with both
descriptors of the target handle removed — so deleting a target with
nothing deployed, deleting repeatedly, and deleting after a partial prior
teardown all succeed. -/
theorem delete_order_and_tolerance (n : String) (s : Store) :
    Deployer.Delete n s =
      (none,
       { secrets := removeA (n, ManagedResourceName) s.secrets,
         managedResources := removeA (n, ManagedResourceName) s.managedResources },
       [DeleteOp.deleteManagedResource (n, ManagedResourceName),
        DeleteOp.deleteSecret (n, ManagedResourceName)]) := by
  unfold Deployer.Delete clientDeleteManagedResource clientDeleteSecret
  cases hmr : lookupA (n, ManagedResourceName) s.managedResources with
  | none =>
    cases hsec : lookupA (n, ManagedResourceName) s.secrets with
    | none =>
      simp [hmr, hsec, removeA_of_lookupA_none _ _ hmr, removeA_of_lookupA_none _ _ hsec]
    | some o =>
      simp [hmr, hsec, removeA_of_lookupA_none _ _ hmr]
  | some o =>
    cases hsec : lookupA (n, ManagedResourceName) s.secrets with
    | none =>
      simp [hmr, hsec, removeA_of_lookupA_none _ _ hsec]
    | some o2 =>
      simp [hmr, hsec]

/-! ## Claim C4: identity of the ingress-class registration -/

/-- Claim C4 counterexample: the ingress-class registration's name is not
fixed across configurations — two resolved configurations differing only in
their ingress class name yield registrations with different names. -/
theorem ingressClass_name_not_fixed :
    (Deployer.ingressClass DefaultConfig).name ≠
      (Deployer.ingressClass { DefaultConfig with IngressClass := "nginx" }).name := by
  decide

/-- Claim C4 amended: the cluster-scoped ingress-class registration emitted
by the builder is named with the resolved configuration's ingressClassName,
so its identity is shared across targets exactly when their
ingressClassName values coincide, not unconditionally. -/
theorem ingressClass_name_parameterized (c : Config) :
    (Deployer.ingressClass c).name = c.IngressClass := rfl

/-! ## Claim C5: the purpose gate -/

/-- Claim C5 counterexample: a reconcile invocation for a hibernated shoot
whose declared purpose is absent does not abort with an error — it returns
success before the purpose gate is evaluated. -/
theorem purpose_gate_counterexample :
    ({ hibernationEnabled := true, purpose := none } : Shoot).purpose ≠
      some ShootPurposeEvaluation ∧
    (Actuator.Reconcile { shoot := { hibernationEnabled := true, purpose := none } }
      RawProviderConfig.absent [] "shoot--a" emptyStore).1 = none := by
  decide

/-- Claim C5 amended: for every reconcile invocation of a non-hibernated
shoot whose declared purpose is absent or differs from "evaluation",
reconciliation aborts with the purpose error and the store is untouched,
and the result is independent of the image resolver — no store write and no
image-resolver call is performed for a disallowed target. -/
theorem purpose_gate (cluster : Cluster) (raw : RawProviderConfig)
    (iv iv2 : ImageVector) (n : String) (s : Store)
    (hh : HibernationIsEnabled cluster.shoot = false)
    (hp : cluster.shoot.purpose ≠ some ShootPurposeEvaluation) :
    (∃ p, Actuator.Reconcile cluster raw iv n s =
      (some (ReconcileError.shootPurposeNotEvaluation p), s)) ∧
    Actuator.Reconcile cluster raw iv n s = Actuator.Reconcile cluster raw iv2 n s := by
  have key : ∀ iv0 : ImageVector, Actuator.Reconcile cluster raw iv0 n s =
      (some (ReconcileError.shootPurposeNotEvaluation
        (match cluster.shoot.purpose with | none => "nil" | some p => p)), s) := by
    intro iv0
    unfold Actuator.Reconcile
    rw [hh]
    simp only [Bool.false_eq_true, if_false]
    cases hpv : cluster.shoot.purpose with
    | none => rfl
    | some p =>
      have hne : p ≠ ShootPurposeEvaluation := fun hcon => hp (by rw [hpv, hcon])
      dsimp only
      rw [if_pos hne]
  exact ⟨⟨_, key iv⟩, by rw [key iv, key iv2]⟩

/-- Concrete instance discharging the hypotheses of `purpose_gate`: a
non-hibernated shoot with purpose "production" is rejected with the store
untouched, whatever the image vector holds. -/
theorem purpose_gate_witness :
    (∃ p, Actuator.Reconcile
        { shoot := { hibernationEnabled := false, purpose := some "production" } }
        RawProviderConfig.absent [] "shoot--a" emptyStore =
      (some (ReconcileError.shootPurposeNotEvaluation p), emptyStore)) ∧
    Actuator.Reconcile
        { shoot := { hibernationEnabled := false, purpose := some "production" } }
        RawProviderConfig.absent [] "shoot--a" emptyStore =
      Actuator.Reconcile
        { shoot := { hibernationEnabled := false, purpose := some "production" } }
        RawProviderConfig.absent [("traefik", "traefik:v3")] "shoot--a" emptyStore :=
  purpose_gate _ _ _ _ _ _ (by decide) (by decide)

/-! ## Claim C6: configuration resolution -/

/-- Claim C6 counterexample: an override replicas value of -1 is present
and non-zero, yet resolution retains the base value 2 — the code replaces
the replicas field only when the override value is strictly positive, not
whenever it is non-zero. -/
theorem resolve_nonzero_not_sufficient :
    ({ Image := "", Replicas := -1, IngressClass := "",
       IngressProvider := "" } : TraefikConfigSpec).Replicas ≠ 0 ∧
    (resolveConfig DefaultConfig
      { Image := "", Replicas := -1, IngressClass := "", IngressProvider := "" }).Replicas =
      DefaultConfig.Replicas := by
  decide

/-- Claim C6 amended: resolution replaces exactly those base fields whose
override value is non-empty (for the string fields image, ingressClassName
and providerVariant) or strictly positive (for replicas), and retains the
base value otherwise; in particular the claim's scenario holds: overriding
the defaults with variant CompatibilityMode and ingress class "nginx"
yields replicas 2, ingress class "nginx" and variant CompatibilityMode. -/
theorem resolve_merge :
    (∀ (base : Config) (o : TraefikConfigSpec),
      resolveConfig base o =
        { Image := if o.Image ≠ "" then o.Image else base.Image
          Replicas := if o.Replicas > 0 then o.Replicas else base.Replicas
          IngressClass := if o.IngressClass ≠ "" then o.IngressClass else base.IngressClass
          IngressProvider :=
            if o.IngressProvider ≠ "" then o.IngressProvider else base.IngressProvider }) ∧
    resolveConfig
        { Image := "", Replicas := 2, IngressClass := "traefik",
          IngressProvider := IngressProviderKubernetesIngress }
        { Image := "", Replicas := 0, IngressClass := "nginx",
          IngressProvider := IngressProviderKubernetesIngressNGINX } =
      { Image := "", Replicas := 2, IngressClass := "nginx",
        IngressProvider := IngressProviderKubernetesIngressNGINX } := by
  constructor
  · intro base o
    unfold resolveConfig
    by_cases h1 : o.Image ≠ "" <;> by_cases h2 : o.Replicas > 0 <;>
      by_cases h3 : o.IngressClass ≠ "" <;> by_cases h4 : o.IngressProvider ≠ "" <;>
      simp [h1, h2, h3, h4]
  · decide

/-! ## Claim C7: decode failure falls back to defaults -/

/-- Claim C7: when the raw override configuration fails to decode, a
non-hibernated evaluation shoot still reconciles: the default configuration
is used unchanged for all fields and reconciliation proceeds to build and
apply the bundle exactly as with no override at all, rather than returning
an error. -/
theorem decode_failure_uses_defaults (cluster : Cluster) (iv : ImageVector)
    (n : String) (s : Store)
    (hh : HibernationIsEnabled cluster.shoot = false)
    (hp : cluster.shoot.purpose = some ShootPurposeEvaluation) :
    Actuator.Reconcile cluster RawProviderConfig.malformed iv n s =
      (match Deployer.Deploy DefaultConfig iv n s with
       | (some e, s1) => (some (ReconcileError.deployFailed e), s1)
       | (none, s1) => (none, s1)) ∧
    Actuator.Reconcile cluster RawProviderConfig.malformed iv n s =
      Actuator.Reconcile cluster RawProviderConfig.absent iv n s := by
  have key : ∀ raw0 : RawProviderConfig,
      (raw0 = RawProviderConfig.malformed ∨ raw0 = RawProviderConfig.absent) →
      Actuator.Reconcile cluster raw0 iv n s =
        (match Deployer.Deploy DefaultConfig iv n s with
         | (some e, s1) => (some (ReconcileError.deployFailed e), s1)
         | (none, s1) => (none, s1)) := by
    intro raw0 hraw
    unfold Actuator.Reconcile
    rw [hh, hp]
    simp only [Bool.false_eq_true, if_false]
    rw [if_neg (by decide : ¬(ShootPurposeEvaluation ≠ ShootPurposeEvaluation))]
    rcases hraw with hraw | hraw <;> rw [hraw]
  exact ⟨key RawProviderConfig.malformed (Or.inl rfl),
    by rw [key RawProviderConfig.malformed (Or.inl rfl), key RawProviderConfig.absent (Or.inr rfl)]⟩

/-- Concrete instance discharging the hypotheses of
`decode_failure_uses_defaults`: an evaluation shoot with a malformed
override reconciles exactly as one with no override. -/
theorem decode_failure_uses_defaults_witness :
    Actuator.Reconcile
        { shoot := { hibernationEnabled := false, purpose := some "evaluation" } }
        RawProviderConfig.malformed [("traefik", "traefik:v3")] "shoot--a" emptyStore =
      (match Deployer.Deploy DefaultConfig [("traefik", "traefik:v3")] "shoot--a" emptyStore with
       | (some e, s1) => (some (ReconcileError.deployFailed e), s1)
       | (none, s1) => (none, s1)) ∧
    Actuator.Reconcile
        { shoot := { hibernationEnabled := false, purpose := some "evaluation" } }
        RawProviderConfig.malformed [("traefik", "traefik:v3")] "shoot--a" emptyStore =
      Actuator.Reconcile
        { shoot := { hibernationEnabled := false, purpose := some "evaluation" } }
        RawProviderConfig.absent [("traefik", "traefik:v3")] "shoot--a" emptyStore :=
  decode_failure_uses_defaults _ _ _ _ (by decide) (by decide)

/-! ## Claim C8: image precedence -/

/-- Claim C8: for every configuration with a non-empty image field, the
builder uses that image string verbatim as the workload container's image;
the result does not mention the image vector, so the external resolver is
never consulted. -/
theorem image_precedence (c : Config) (iv : ImageVector) (h : c.Image ≠ "") :
    Deployer.deployment c iv = Except.ok (Deployer.deploymentFor c c.Image) ∧
    (Deployer.deploymentFor c c.Image).containers.map (fun ct => ct.image) = [c.Image] := by
  constructor
  · unfold Deployer.deployment
    rw [if_neg h]
  · rfl

/-- Concrete instance discharging the hypothesis of `image_precedence`:
with image "custom:v1" configured, the workload image is exactly
"custom:v1" even though the image vector maps the traefik key elsewhere. -/
theorem image_precedence_witness :
    Deployer.deployment
        { Image := "custom:v1", Replicas := 2, IngressClass := "traefik",
          IngressProvider := "KubernetesIngress" } [("traefik", "vector:img")] =
      Except.ok (Deployer.deploymentFor
        { Image := "custom:v1", Replicas := 2, IngressClass := "traefik",
          IngressProvider := "KubernetesIngress" } "custom:v1") ∧
    (Deployer.deploymentFor
        { Image := "custom:v1", Replicas := 2, IngressClass := "traefik",
          IngressProvider := "KubernetesIngress" } "custom:v1").containers.map
      (fun ct => ct.image) = ["custom:v1"] :=
  image_precedence _ [("traefik", "vector:img")] (by decide)

/-! ## Claim C9: image fallback failure -/

/-- Claim C9: for every configuration with an empty image field whose image
vector has no matching entry, the build fails with the image resolution
error and returns no bundle, and Deploy returns the wrapped error with the
store untouched — no store write is performed. -/
theorem image_fallback_failure (c : Config) (iv : ImageVector) (n : String)
    (s : Store) (h1 : c.Image = "") (h2 : findImage iv ImageName = none) :
    Deployer.generateResources c iv =
      Except.error "failed to create deployment: failed to find traefik image in image vector" ∧
    Deployer.Deploy c iv n s =
      (some (DeployError.generateFailed
        "failed to generate traefik resources: failed to create deployment: failed to find traefik image in image vector"),
       s) := by
  have hdep : Deployer.deployment c iv =
      Except.error "failed to find traefik image in image vector" := by
    unfold Deployer.deployment
    rw [if_pos h1, h2]
  have hgen : Deployer.generateResources c iv =
      Except.error "failed to create deployment: failed to find traefik image in image vector" := by
    unfold Deployer.generateResources
    rw [hdep]
    rfl
  refine ⟨hgen, ?_⟩
  unfold Deployer.Deploy
  rw [hgen]
  rfl

/-- Concrete instance discharging the hypotheses of
`image_fallback_failure`: the default configuration (empty image) against
an empty image vector fails without touching the store. -/
theorem image_fallback_failure_witness :
    Deployer.generateResources DefaultConfig [] =
      Except.error "failed to create deployment: failed to find traefik image in image vector" ∧
    Deployer.Deploy DefaultConfig [] "shoot--a" emptyStore =
      (some (DeployError.generateFailed
        "failed to generate traefik resources: failed to create deployment: failed to find traefik image in image vector"),
       emptyStore) :=
  image_fallback_failure _ _ _ _ (by decide) (by decide)

/-! ## Claim C10: hibernation short-circuit -/

/-- Claim C10: for every reconcile invocation whose target shoot has
hibernation enabled, Reconcile returns success immediately with the store
untouched, whatever the provider config, image vector and purpose — in
particular a hibernated shoot whose purpose is not "evaluation" still
reconciles without error. -/
theorem hibernation_skip (cluster : Cluster) (raw : RawProviderConfig)
    (iv : ImageVector) (n : String) (s : Store)
    (hh : HibernationIsEnabled cluster.shoot = true) :
    Actuator.Reconcile cluster raw iv n s = (none, s) := by
  unfold Actuator.Reconcile
  rw [hh]
  rfl

/-- Concrete instance discharging the hypothesis of `hibernation_skip`: a
hibernated shoot with purpose "production" (not "evaluation") reconciles
without error and without touching the store. -/
theorem hibernation_skip_witness :
    Actuator.Reconcile
      { shoot := { hibernationEnabled := true, purpose := some "production" } }
      RawProviderConfig.absent [] "shoot--a" emptyStore = (none, emptyStore) :=
  hibernation_skip _ _ _ _ _ (by decide)

end ShootTraefik
